import Mathlib

/-!
Verification of the retry-with-backoff decorator (src/my_agent/test.py)
and the Factorial class (src/my_agent/test copy.py).

Modelling conventions:
* Python numbers (delay, backoff, jitter) are embedded as rationals.
* An exception is a pair of a kind (the exception type, as a numeric tag)
  and a message payload; `isinstance(e, exceptions)` for a tuple of
  exception types becomes membership of the kind in a list of tags.
* The wrapped operation is a function from the attempt number (1-indexed)
  to `Except Exc α`: raising is `Except.error`, returning is `Except.ok`.
* `random.uniform(0, hi)` is modelled as `u * hi` for an oracle value
  `u ∈ [0, 1]` drawn per attempt; the oracle `u : Nat → ℚ` gives the
  fraction used when sleeping after a given attempt.
* `time.sleep` is recorded in a trace: the executor returns the outcome,
  the number of invocations of the operation, and the list of slept
  durations in order.
-/

namespace RetrySpec

/-- An exception value: a kind tag (its Python type) and a message. -/
structure Exc where
  kind : Nat
  msg : String
deriving DecidableEq

/-- Observable behaviour of one call of the retry-wrapped operation:
the final outcome, how many times the underlying operation was invoked,
and the durations slept between attempts, in order. -/
structure RetryResult (α : Type) where
  outcome : Except Exc α
  invocations : Nat
  sleeps : List ℚ

/-- The jitter amount added to the current delay, from test.py lines 59-64:
if jitter > 0 and jitter < 1 it is a percentage, `uniform(0, current_delay * jitter)`;
if jitter >= 1 it is absolute, `uniform(0, jitter)`; otherwise nothing is added.
The uniform draw `uniform(0, hi)` is `uv * hi` with `uv` the oracle fraction. -/
def jitter_amount (jitter current_delay uv : ℚ) : ℚ :=
  if 0 < jitter then
    if jitter < 1 then uv * (current_delay * jitter)
    else uv * jitter
  else 0

/-- The body of `f_retry` (test.py lines 51-75): `while mtries > 1` try the
operation, return on success, propagate a non-retryable exception, otherwise
sleep `mdelay` plus jitter, decrement `mtries`, multiply `mdelay` by
`backoff`; after the loop one last attempt whose outcome propagates.
`attempt` is the 1-indexed number of the invocation about to be made. -/
def f_retry_go {α : Type} (excs : List Nat) (backoff jitter : ℚ) (u : Nat → ℚ)
    (op : Nat → Except Exc α) :
    Nat → Nat → ℚ → RetryResult α
  | 0, attempt, _ => ⟨op attempt, attempt, []⟩
  | 1, attempt, _ => ⟨op attempt, attempt, []⟩
  | mtries + 2, attempt, mdelay =>
    match op attempt with
    | Except.ok v => ⟨Except.ok v, attempt, []⟩
    | Except.error e =>
      if e.kind ∈ excs then
        let current_delay := mdelay + jitter_amount jitter mdelay (u attempt)
        let r := f_retry_go excs backoff jitter u op (mtries + 1) (attempt + 1)
          (mdelay * backoff)
        ⟨r.outcome, r.invocations, current_delay :: r.sleeps⟩
      else ⟨Except.error e, attempt, []⟩

/-- One call of the retry-wrapped operation: `mtries, mdelay = tries, delay`
and the loop of `f_retry`. -/
def f_retry {α : Type} (tries : Nat) (delay backoff jitter : ℚ) (excs : List Nat)
    (u : Nat → ℚ) (op : Nat → Except Exc α) : RetryResult α :=
  f_retry_go excs backoff jitter u op tries 1 delay

/-- The kinds of error raised by configuration validation: Python's
ValueError and TypeError. -/
inductive PyError where
  | valueError : PyError
  | typeError : PyError
deriving DecidableEq

/-- Validation performed by the `retry` decorator factory at construction
time (test.py lines 40-47): tries must be at least 1, delay non-negative,
backoff at least 1, and exceptions must be a tuple.  `exceptions_is_tuple`
records whether the passed retryable set is a tuple of exception types.
Note `jitter` is received but never validated. -/
def retry_validate (tries : Int) (delay backoff : ℚ)
    (exceptions_is_tuple : Bool) (jitter : ℚ) : Except PyError Unit :=
  if tries < 1 then Except.error PyError.valueError
  else if delay < 0 then Except.error PyError.valueError
  else if backoff < 1 then Except.error PyError.valueError
  else if exceptions_is_tuple = false then Except.error PyError.typeError
  else Except.ok ()

/-- The failure kind of an outcome: the exception type tag of a raise,
none for a normal return.  Used to compare runs whose operations differ
only in message payloads. -/
def exc_kind_of {α : Type} : Except Exc α → Option Nat
  | Except.ok _ => none
  | Except.error e => some e.kind

/-- Applying the decorator and then calling the wrapped operation once:
construction fails before the operation runs when validation fails,
otherwise one `f_retry` call is made. -/
def retry_apply {α : Type} (tries : Int) (delay backoff jitter : ℚ)
    (exceptions_is_tuple : Bool) (excs : List Nat)
    (u : Nat → ℚ) (op : Nat → Except Exc α) :
    Except PyError (RetryResult α) :=
  match retry_validate tries delay backoff exceptions_is_tuple jitter with
  | Except.error err => Except.error err
  | Except.ok _ => Except.ok (f_retry tries.toNat delay backoff jitter excs u op)

end RetrySpec

namespace FactorialSpec

/-- The state of a Factorial object (test copy.py): the stored number and
the cached result, `None` before the first computation. -/
structure Factorial where
  number : Nat
  factorial_result : Option Nat
deriving DecidableEq

/-- Constructor validation of Factorial.__init__: a non-integer input
raises TypeError (outside this embedding, where the input is an integer),
a negative input raises ValueError; otherwise the number is stored and the
cache starts empty. -/
def Factorial.init (n : Int) : Except RetrySpec.PyError Factorial :=
  if n < 0 then Except.error RetrySpec.PyError.valueError
  else Except.ok ⟨n.toNat, none⟩

/-- Factorial.calculate (test copy.py lines 35-53): return the cached
result when present; else 1 for number = 0, else the iterative product
`for i in range(1, number + 1): result *= i`; the result is cached.
Returns the value together with the updated object state. -/
def Factorial.calculate (f : Factorial) : Nat × Factorial :=
  match f.factorial_result with
  | some r => (r, f)
  | none =>
    if f.number = 0 then (1, { f with factorial_result := some 1 })
    else
      let result := (List.range' 1 f.number).foldl (fun a i => a * i) 1
      (result, { f with factorial_result := some result })

/-- Factorial.using_math_module (test copy.py lines 100-113):
`math.factorial(number)`, the mathematical factorial. -/
def Factorial.using_math_module (f : Factorial) : Nat :=
  Nat.factorial f.number

end FactorialSpec

namespace FactorialSpec

theorem foldl_range_one_factorial (n : Nat) :
    (List.range' 1 n).foldl (fun a i => a * i) 1 = Nat.factorial n := by
  induction n with
  | zero => rfl
  | succ m ih =>
    rw [List.range'_1_concat, List.foldl_append, ih, List.foldl_cons, List.foldl_nil,
      Nat.factorial_succ]
    ring

/-- C10: a Factorial object constructed with a non-negative integer n has
calculate() return n! (1 for n = 0), this equals using_math_module() on
the same object, and a subsequent calculate() returns the same cached
value. -/
theorem factorial_calculate_correct (n : Nat) :
    Factorial.init (n : Int) = Except.ok ⟨n, none⟩ ∧
    (Factorial.calculate ⟨n, none⟩).1 = Nat.factorial n ∧
    (Factorial.calculate ⟨n, none⟩).1 = Factorial.using_math_module ⟨n, none⟩ ∧
    ((Factorial.calculate ⟨n, none⟩).2.calculate).1 = (Factorial.calculate ⟨n, none⟩).1 := by
  refine ⟨?_, ?_, ?_, ?_⟩
  · simp [Factorial.init]
  · rcases Nat.eq_zero_or_pos n with h | h
    · subst h; rfl
    · simp only [Factorial.calculate, Nat.pos_iff_ne_zero.mp h, if_false]
      exact foldl_range_one_factorial n
  · rcases Nat.eq_zero_or_pos n with h | h
    · subst h; rfl
    · simp only [Factorial.calculate, Factorial.using_math_module,
        Nat.pos_iff_ne_zero.mp h, if_false]
      exact foldl_range_one_factorial n
  · rcases Nat.eq_zero_or_pos n with h | h
    · subst h; rfl
    · simp [Factorial.calculate, Nat.pos_iff_ne_zero.mp h]

end FactorialSpec

namespace RetrySpec

theorem f_retry_go_success {α : Type} (excs : List Nat) (b j : ℚ) (u : Nat → ℚ)
    (op : Nat → Except Exc α) (mtries attempt : Nat) (md : ℚ) (v : α)
    (h : op attempt = Except.ok v) :
    f_retry_go excs b j u op mtries attempt md = ⟨Except.ok v, attempt, []⟩ := by
  match mtries with
  | 0 => simp [f_retry_go, h]
  | 1 => simp [f_retry_go, h]
  | m + 2 => simp [f_retry_go, h]

theorem f_retry_go_last {α : Type} (excs : List Nat) (b j : ℚ) (u : Nat → ℚ)
    (op : Nat → Except Exc α) (mtries attempt : Nat) (md : ℚ)
    (h : mtries ≤ 1) :
    f_retry_go excs b j u op mtries attempt md = ⟨op attempt, attempt, []⟩ := by
  match mtries with
  | 0 => simp [f_retry_go]
  | 1 => simp [f_retry_go]

theorem f_retry_go_nonretryable {α : Type} (excs : List Nat) (b j : ℚ) (u : Nat → ℚ)
    (op : Nat → Except Exc α) (mtries attempt : Nat) (md : ℚ) (e : Exc)
    (hop : op attempt = Except.error e) (hk : e.kind ∉ excs) :
    f_retry_go excs b j u op mtries attempt md = ⟨Except.error e, attempt, []⟩ := by
  match mtries with
  | 0 => simp [f_retry_go, hop]
  | 1 => simp [f_retry_go, hop]
  | m + 2 => simp [f_retry_go, hop, hk]

theorem f_retry_go_prefix_fail {α : Type} (excs : List Nat) (b j : ℚ) (u : Nat → ℚ)
    (op : Nat → Except Exc α) :
    ∀ (m mtries attempt : Nat) (md : ℚ),
      (∀ t, t < m → ∃ ex, op (attempt + t) = Except.error ex ∧ ex.kind ∈ excs) →
      m < mtries →
      f_retry_go excs b j u op mtries attempt md =
        ⟨(f_retry_go excs b j u op (mtries - m) (attempt + m) (md * b ^ m)).outcome,
         (f_retry_go excs b j u op (mtries - m) (attempt + m) (md * b ^ m)).invocations,
         (List.range m).map
             (fun k => md * b ^ k + jitter_amount j (md * b ^ k) (u (attempt + k))) ++
           (f_retry_go excs b j u op (mtries - m) (attempt + m) (md * b ^ m)).sleeps⟩ := by
  intro m
  induction m with
  | zero =>
    intro mtries attempt md _ _
    simp
  | succ m ih =>
    intro mtries attempt md h hm
    obtain ⟨ex, hop, hk⟩ := h 0 (Nat.succ_pos m)
    rw [Nat.add_zero] at hop
    obtain ⟨mt, rfl⟩ : ∃ mt, mtries = mt + 2 := ⟨mtries - 2, by omega⟩
    have hrec := ih (mt + 1) (attempt + 1) (md * b)
      (fun t ht => by
        obtain ⟨ex2, hop2, hk2⟩ := h (t + 1) (by omega)
        refine ⟨ex2, ?_, hk2⟩
        rw [show attempt + 1 + t = attempt + (t + 1) by omega]
        exact hop2)
      (by omega)
    simp only [f_retry_go, hop, hk, if_true]
    rw [hrec]
    have h1 : mt + 2 - (m + 1) = mt + 1 - m := by omega
    have h2 : attempt + (m + 1) = attempt + 1 + m := by omega
    have h3 : md * b ^ (m + 1) = md * b * b ^ m := by ring
    rw [h1, h2, h3]
    simp only [RetryResult.mk.injEq, true_and]
    rw [List.range_succ_eq_map, List.map_cons, List.map_map, List.cons_append]
    have hf0 : md * b ^ 0 + jitter_amount j (md * b ^ 0) (u (attempt + 0)) =
        md + jitter_amount j md (u attempt) := by norm_num
    have hfg : (fun k => md * b ^ k + jitter_amount j (md * b ^ k) (u (attempt + k))) ∘ Nat.succ
        = fun k => md * b * b ^ k + jitter_amount j (md * b * b ^ k) (u (attempt + 1 + k)) := by
      funext k
      have hbk : md * b ^ (k + 1) = md * b * b ^ k := by ring
      have hik : attempt + (k + 1) = attempt + 1 + k := by omega
      simp only [Function.comp]
      rw [show Nat.succ k = k + 1 from rfl, hbk, hik]
    rw [hf0, hfg]

theorem f_retry_go_invocations_len {α : Type} (excs : List Nat) (b j : ℚ) (u : Nat → ℚ)
    (op : Nat → Except Exc α) :
    ∀ (mtries attempt : Nat) (md : ℚ),
      (f_retry_go excs b j u op mtries attempt md).invocations =
        attempt + (f_retry_go excs b j u op mtries attempt md).sleeps.length := by
  intro mtries
  induction mtries with
  | zero => intro attempt md; simp [f_retry_go]
  | succ m ih =>
    intro attempt md
    cases m with
    | zero => simp [f_retry_go]
    | succ mt =>
      cases hop : op attempt with
      | ok v => simp [f_retry_go, hop]
      | error e =>
        by_cases hk : e.kind ∈ excs
        · simp only [f_retry_go, hop, hk, if_true]
          rw [ih (attempt + 1) (md * b)]
          simp only [List.length_cons]
          omega
        · simp [f_retry_go, hop, hk]

theorem f_retry_go_error_from_op {α : Type} (excs : List Nat) (b j : ℚ) (u : Nat → ℚ)
    (op : Nat → Except Exc α) :
    ∀ (mtries attempt : Nat) (md : ℚ) (ex : Exc),
      (f_retry_go excs b j u op mtries attempt md).outcome = Except.error ex →
      op (f_retry_go excs b j u op mtries attempt md).invocations = Except.error ex := by
  intro mtries
  induction mtries with
  | zero =>
    intro attempt md ex h
    simp only [f_retry_go] at h ⊢
    exact h
  | succ m ih =>
    intro attempt md ex h
    cases m with
    | zero =>
      simp only [f_retry_go] at h ⊢
      exact h
    | succ mt =>
      cases hop : op attempt with
      | ok v => simp [f_retry_go, hop] at h
      | error e =>
        by_cases hk : e.kind ∈ excs
        · simp only [f_retry_go, hop, hk, if_true] at h ⊢
          exact ih (attempt + 1) (md * b) ex h
        · simp only [f_retry_go, hop, hk, if_false] at h ⊢
          exact h

/-- C1: with maxAttempts = N ≥ 1 and an operation failing with a retryable
kind on every invocation, the wrapped operation invokes the operation
exactly N times, performs N - 1 sleeps, and propagates the final failure;
for N = 1 there is a single attempt, no retry and no sleep. -/
theorem retry_always_fail_invokes_exactly_n {α : Type} (N : Nat) (d b j : ℚ)
    (excs : List Nat) (u : Nat → ℚ) (op : Nat → Except Exc α) (e : Nat → Exc)
    (hN : 1 ≤ N)
    (hop : ∀ i, op i = Except.error (e i))
    (hret : ∀ i, (e i).kind ∈ excs) :
    (f_retry N d b j excs u op).invocations = N ∧
    (f_retry N d b j excs u op).outcome = Except.error (e N) ∧
    (f_retry N d b j excs u op).sleeps.length = N - 1 ∧
    (N = 1 → (f_retry N d b j excs u op).sleeps = []) := by
  have key := f_retry_go_prefix_fail excs b j u op (N - 1) N 1 d
    (fun t _ => ⟨e (1 + t), hop (1 + t), hret (1 + t)⟩) (by omega)
  have hN2 : 1 + (N - 1) = N := by omega
  rw [hN2] at key
  rw [f_retry, key, f_retry_go_last excs b j u op (N - (N - 1)) N (d * b ^ (N - 1)) (by omega)]
  refine ⟨rfl, by simp [hop N], by simp, ?_⟩
  intro h1
  subst h1
  simp

/-- C2: an operation failing with a non-retryable kind is invoked exactly
once with zero sleeps, and the failure propagates immediately, whatever the
configured number of attempts. -/
theorem retry_nonretryable_single_invocation {α : Type} (tries : Nat) (d b j : ℚ)
    (excs : List Nat) (u : Nat → ℚ) (op : Nat → Except Exc α) (e : Exc)
    (hop : op 1 = Except.error e) (hk : e.kind ∉ excs) :
    f_retry tries d b j excs u op = ⟨Except.error e, 1, []⟩ := by
  rw [f_retry, f_retry_go_nonretryable excs b j u op tries 1 d e hop hk]

/-- C3: an operation that first succeeds on attempt k ≤ N returns that
result unchanged, with exactly k invocations and exactly k - 1 sleeps. -/
theorem retry_success_at_k {α : Type} (N k : Nat) (d b j : ℚ) (excs : List Nat)
    (u : Nat → ℚ) (op : Nat → Except Exc α) (v : α)
    (hk1 : 1 ≤ k) (hkN : k ≤ N)
    (hfail : ∀ i, 1 ≤ i → i < k → ∃ ex, op i = Except.error ex ∧ ex.kind ∈ excs)
    (hsucc : op k = Except.ok v) :
    (f_retry N d b j excs u op).outcome = Except.ok v ∧
    (f_retry N d b j excs u op).invocations = k ∧
    (f_retry N d b j excs u op).sleeps.length = k - 1 := by
  have key := f_retry_go_prefix_fail excs b j u op (k - 1) N 1 d
    (fun t ht => hfail (1 + t) (by omega) (by omega)) (by omega)
  have h2 : 1 + (k - 1) = k := by omega
  rw [h2] at key
  rw [f_retry, key, f_retry_go_success excs b j u op (N - (k - 1)) k (d * b ^ (k - 1)) v hsucc]
  exact ⟨rfl, rfl, by simp⟩

/-- C7: whenever the wrapped operation terminates with a failure, that
failure is exactly the one raised by the underlying operation on its last
invocation, and the number of invocations exceeds the number of sleeps by
one (so the final attempt is not followed by a sleep). -/
theorem retry_terminal_failure_unchanged {α : Type} (N : Nat) (d b j : ℚ)
    (excs : List Nat) (u : Nat → ℚ) (op : Nat → Except Exc α) (ex : Exc)
    (hout : (f_retry N d b j excs u op).outcome = Except.error ex) :
    op (f_retry N d b j excs u op).invocations = Except.error ex ∧
    (f_retry N d b j excs u op).invocations =
      (f_retry N d b j excs u op).sleeps.length + 1 := by
  refine ⟨f_retry_go_error_from_op excs b j u op N 1 d ex hout, ?_⟩
  have h := f_retry_go_invocations_len excs b j u op N 1 d
  rw [f_retry]
  omega

theorem f_retry_sleep_formula {α : Type} (N i : Nat) (d b j : ℚ)
    (excs : List Nat) (u : Nat → ℚ) (op : Nat → Except Exc α)
    (h2 : 2 ≤ i) (hiN : i ≤ N)
    (hfail : ∀ t, 1 ≤ t → t < i → ∃ ex, op t = Except.error ex ∧ ex.kind ∈ excs) :
    (f_retry N d b j excs u op).sleeps[i - 2]? =
      some (d * b ^ (i - 2) + jitter_amount j (d * b ^ (i - 2)) (u (i - 1))) := by
  have key := f_retry_go_prefix_fail excs b j u op (i - 1) N 1 d
    (fun t ht => hfail (1 + t) (by omega) (by omega)) (by omega)
  rw [f_retry, key]
  dsimp only
  rw [List.getElem?_append_left (by simp; omega), List.getElem?_map,
    List.getElem?_range (by omega)]
  simp only [Option.map_some']
  rw [show 1 + (i - 2) = i - 1 by omega]

/-- C4: constructing the retry configuration with tries < 1, a negative
delay, backoff < 1, or a retryable set that is not a tuple fails at
decorator-construction time: the result is an error that does not depend
on the wrapped operation, so the operation is never invoked. -/
theorem retry_invalid_config_rejected (α : Type) (tries : Int) (d b j : ℚ)
    (tuple : Bool) (excs : List Nat) (u : Nat → ℚ)
    (h : tries < 1 ∨ d < 0 ∨ b < 1 ∨ tuple = false) :
    ∃ err : PyError, ∀ op : Nat → Except Exc α,
      retry_apply tries d b j tuple excs u op = Except.error err := by
  by_cases h1 : tries < 1
  · exact ⟨PyError.valueError, fun op => by simp [retry_apply, retry_validate, h1]⟩
  · by_cases hd : d < 0
    · exact ⟨PyError.valueError, fun op => by simp [retry_apply, retry_validate, h1, hd]⟩
    · by_cases hb : b < 1
      · exact ⟨PyError.valueError, fun op => by
          simp [retry_apply, retry_validate, h1, hd, hb]⟩
      · have ht : tuple = false := by tauto
        exact ⟨PyError.typeError, fun op => by
          simp [retry_apply, retry_validate, h1, hd, hb, ht]⟩

/-- C5: with initialDelay d, backoffMultiplier b and zero jitter, the
sleep before attempt i (i ≥ 2) in a run reaching attempt i equals
d * b ^ (i - 2) exactly; for any jitter, the sleep before attempt i is
the unjittered d * b ^ (i - 2) plus that attempt's jitter amount, so
jitter is never compounded into later delays. -/
theorem retry_zero_jitter_delay_sequence {α : Type} (N i : Nat) (d b : ℚ)
    (excs : List Nat) (u : Nat → ℚ) (op : Nat → Except Exc α)
    (h2 : 2 ≤ i) (hiN : i ≤ N)
    (hfail : ∀ t, 1 ≤ t → t < i → ∃ ex, op t = Except.error ex ∧ ex.kind ∈ excs) :
    (f_retry N d b 0 excs u op).sleeps[i - 2]? = some (d * b ^ (i - 2)) ∧
    ∀ jit : ℚ, (f_retry N d b jit excs u op).sleeps[i - 2]? =
      some (d * b ^ (i - 2) + jitter_amount jit (d * b ^ (i - 2)) (u (i - 1))) := by
  refine ⟨?_, fun jit => f_retry_sleep_formula N i d b jit excs u op h2 hiN hfail⟩
  rw [f_retry_sleep_formula N i d b 0 excs u op h2 hiN hfail]
  simp [jitter_amount]

/-- C6: the sleep before a retried attempt is the unjittered current delay
plus a jitter amount drawn fresh from that attempt's random draw: for
jitter j in (0,1) it lies in [currentDelay, currentDelay * (1 + j)], for
j ≥ 1 in [currentDelay, currentDelay + j], and for j = 0 it equals
currentDelay exactly. -/
theorem retry_jitter_sleep_bounds {α : Type} (N i : Nat) (d b j : ℚ)
    (excs : List Nat) (u : Nat → ℚ) (op : Nat → Except Exc α)
    (h2 : 2 ≤ i) (hiN : i ≤ N)
    (hd : 0 ≤ d) (hb : 0 ≤ b)
    (hu0 : 0 ≤ u (i - 1)) (hu1 : u (i - 1) ≤ 1)
    (hfail : ∀ t, 1 ≤ t → t < i → ∃ ex, op t = Except.error ex ∧ ex.kind ∈ excs) :
    ∃ s, (f_retry N d b j excs u op).sleeps[i - 2]? = some s ∧
      s = d * b ^ (i - 2) + jitter_amount j (d * b ^ (i - 2)) (u (i - 1)) ∧
      (0 < j → j < 1 → d * b ^ (i - 2) ≤ s ∧ s ≤ d * b ^ (i - 2) * (1 + j)) ∧
      (1 ≤ j → d * b ^ (i - 2) ≤ s ∧ s ≤ d * b ^ (i - 2) + j) ∧
      (j = 0 → s = d * b ^ (i - 2)) := by
  have hmd : (0:ℚ) ≤ d * b ^ (i - 2) := mul_nonneg hd (pow_nonneg hb _)
  refine ⟨d * b ^ (i - 2) + jitter_amount j (d * b ^ (i - 2)) (u (i - 1)),
    f_retry_sleep_formula N i d b j excs u op h2 hiN hfail, rfl, ?_, ?_, ?_⟩
  · intro hj0 hj1
    rw [jitter_amount, if_pos hj0, if_pos hj1]
    have hmj : (0:ℚ) ≤ d * b ^ (i - 2) * j := mul_nonneg hmd hj0.le
    have hlo : (0:ℚ) ≤ u (i - 1) * (d * b ^ (i - 2) * j) := mul_nonneg hu0 hmj
    have hhi : u (i - 1) * (d * b ^ (i - 2) * j) ≤ d * b ^ (i - 2) * j :=
      mul_le_of_le_one_left hmj hu1
    have hexp : d * b ^ (i - 2) * (1 + j) = d * b ^ (i - 2) + d * b ^ (i - 2) * j := by
      ring
    constructor
    · linarith
    · linarith
  · intro hj1
    have hj0 : (0:ℚ) < j := lt_of_lt_of_le one_pos hj1
    rw [jitter_amount, if_pos hj0, if_neg (not_lt.mpr hj1)]
    have hlo : (0:ℚ) ≤ u (i - 1) * j := mul_nonneg hu0 hj0.le
    have hhi : u (i - 1) * j ≤ j := mul_le_of_le_one_left hj0.le hu1
    constructor
    · linarith
    · linarith
  · intro hj
    subst hj
    simp [jitter_amount]

theorem f_retry_go_kind_only {α : Type} (excs : List Nat) (b j : ℚ) (u : Nat → ℚ)
    (op1 op2 : Nat → Except Exc α)
    (h : ∀ t, exc_kind_of (op1 t) = exc_kind_of (op2 t)) :
    ∀ (mtries attempt : Nat) (md : ℚ),
      (f_retry_go excs b j u op1 mtries attempt md).invocations =
        (f_retry_go excs b j u op2 mtries attempt md).invocations ∧
      (f_retry_go excs b j u op1 mtries attempt md).sleeps =
        (f_retry_go excs b j u op2 mtries attempt md).sleeps ∧
      exc_kind_of (f_retry_go excs b j u op1 mtries attempt md).outcome =
        exc_kind_of (f_retry_go excs b j u op2 mtries attempt md).outcome := by
  intro mtries
  induction mtries with
  | zero =>
    intro attempt md
    simp only [f_retry_go]
    exact ⟨trivial, trivial, h attempt⟩
  | succ m ih =>
    intro attempt md
    cases m with
    | zero =>
      simp only [f_retry_go]
      exact ⟨trivial, trivial, h attempt⟩
    | succ mt =>
      have ht := h attempt
      cases hop1 : op1 attempt with
      | ok v1 =>
        cases hop2 : op2 attempt with
        | ok v2 => simp [f_retry_go, hop1, hop2, exc_kind_of]
        | error e2 => rw [hop1, hop2] at ht; simp [exc_kind_of] at ht
      | error e1 =>
        cases hop2 : op2 attempt with
        | ok v2 => rw [hop1, hop2] at ht; simp [exc_kind_of] at ht
        | error e2 =>
          rw [hop1, hop2] at ht
          simp only [exc_kind_of, Option.some.injEq] at ht
          by_cases hk : e1.kind ∈ excs
          · have hk2 : e2.kind ∈ excs := ht ▸ hk
            simp only [f_retry_go, hop1, hop2, hk, hk2, if_true]
            obtain ⟨hi, hs, ho⟩ := ih (attempt + 1) (md * b)
            exact ⟨hi, by rw [hs], ho⟩
          · have hk2 : e2.kind ∉ excs := ht ▸ hk
            simp only [f_retry_go, hop1, hop2, hk, hk2, if_false]
            exact ⟨trivial, trivial, by simp [exc_kind_of, ht]⟩

/-- C8: the retry-versus-propagate decision depends only on the failure
kind, never on the message payload: two operations that agree at every
attempt on success versus failure and on the failure kind produce runs
with the same number of invocations, the same sleeps, and terminal
outcomes of the same kind. -/
theorem retry_classification_kind_only {α : Type} (N : Nat) (d b j : ℚ)
    (excs : List Nat) (u : Nat → ℚ) (op1 op2 : Nat → Except Exc α)
    (h : ∀ t, exc_kind_of (op1 t) = exc_kind_of (op2 t)) :
    (f_retry N d b j excs u op1).invocations =
      (f_retry N d b j excs u op2).invocations ∧
    (f_retry N d b j excs u op1).sleeps = (f_retry N d b j excs u op2).sleeps ∧
    exc_kind_of (f_retry N d b j excs u op1).outcome =
      exc_kind_of (f_retry N d b j excs u op2).outcome :=
  f_retry_go_kind_only excs b j u op1 op2 h N 1 d

theorem f_retry_go_jitter_nonpos {α : Type} (excs : List Nat) (b j : ℚ) (u : Nat → ℚ)
    (op : Nat → Except Exc α) (hj : j ≤ 0) :
    ∀ (mtries attempt : Nat) (md : ℚ),
      f_retry_go excs b j u op mtries attempt md =
        f_retry_go excs b 0 u op mtries attempt md := by
  have hja : ∀ (md uv : ℚ), jitter_amount j md uv = jitter_amount 0 md uv := by
    intro md uv
    simp [jitter_amount, not_lt.mpr hj]
  intro mtries
  induction mtries with
  | zero => intro attempt md; simp [f_retry_go]
  | succ m ih =>
    intro attempt md
    cases m with
    | zero => simp [f_retry_go]
    | succ mt =>
      cases hop : op attempt with
      | ok v => simp [f_retry_go, hop]
      | error e =>
        by_cases hk : e.kind ∈ excs
        · simp only [f_retry_go, hop, hk, if_true]
          rw [ih (attempt + 1) (md * b), hja md (u attempt)]
        · simp [f_retry_go, hop, hk]

/-- C9: a negative jitter passes configuration validation untouched (the
decorator never validates jitter; with the other parameters valid the
construction succeeds), and execution under a negative jitter is
identical to execution with jitter = 0: no jitter is ever added, every
sleep is the unjittered current delay. -/
theorem retry_negative_jitter_like_zero {α : Type} (tries : Int) (N : Nat)
    (d b j : ℚ) (tuple : Bool) (excs : List Nat) (u : Nat → ℚ)
    (op : Nat → Except Exc α)
    (hj : j < 0) :
    retry_validate tries d b tuple j = retry_validate tries d b tuple 0 ∧
    (1 ≤ tries → 0 ≤ d → 1 ≤ b → tuple = true →
      retry_validate tries d b tuple j = Except.ok ()) ∧
    f_retry N d b j excs u op = f_retry N d b 0 excs u op := by
  refine ⟨rfl, ?_, ?_⟩
  · intro h1 h2 h3 h4
    simp [retry_validate, not_lt.mpr h1, not_lt.mpr h2, not_lt.mpr h3, h4]
  · rw [f_retry, f_retry, f_retry_go_jitter_nonpos excs b j u op hj.le N 1 d]

theorem retry_always_fail_witness :
    ((1:Nat) ≤ 3 ∧
      (∀ i : Nat, (fun _ : Nat => (Except.error ⟨7, "boom"⟩ : Except Exc Nat)) i =
        Except.error ((fun _ : Nat => (⟨7, "boom"⟩ : Exc)) i)) ∧
      (∀ i : Nat, ((fun _ : Nat => (⟨7, "boom"⟩ : Exc)) i).kind ∈ [7])) ∧
    ((f_retry 3 1 2 0 [7] (fun _ => 0)
        (fun _ : Nat => (Except.error ⟨7, "boom"⟩ : Except Exc Nat))).invocations = 3 ∧
      (f_retry 3 1 2 0 [7] (fun _ => 0)
        (fun _ : Nat => (Except.error ⟨7, "boom"⟩ : Except Exc Nat))).outcome =
        Except.error ⟨7, "boom"⟩ ∧
      (f_retry 3 1 2 0 [7] (fun _ => 0)
        (fun _ : Nat => (Except.error ⟨7, "boom"⟩ : Except Exc Nat))).sleeps.length = 3 - 1 ∧
      ((3:Nat) = 1 → (f_retry 3 1 2 0 [7] (fun _ => 0)
        (fun _ : Nat => (Except.error ⟨7, "boom"⟩ : Except Exc Nat))).sleeps = [])) :=
  ⟨⟨by norm_num, fun _ => rfl, fun _ => by simp⟩,
   retry_always_fail_invokes_exactly_n 3 1 2 0 [7] (fun _ => 0)
     (fun _ : Nat => (Except.error ⟨7, "boom"⟩ : Except Exc Nat))
     (fun _ => ⟨7, "boom"⟩) (by norm_num) (fun _ => rfl) (fun _ => by simp)⟩

theorem retry_nonretryable_witness :
    ((fun _ : Nat => (Except.error ⟨9, "denied"⟩ : Except Exc Nat)) 1 =
        Except.error ⟨9, "denied"⟩ ∧
      (⟨9, "denied"⟩ : Exc).kind ∉ [0, 1]) ∧
    f_retry 5 1 2 0 [0, 1] (fun _ => 0)
        (fun _ : Nat => (Except.error ⟨9, "denied"⟩ : Except Exc Nat)) =
      ⟨Except.error ⟨9, "denied"⟩, 1, []⟩ :=
  ⟨⟨rfl, by decide⟩,
   retry_nonretryable_single_invocation 5 1 2 0 [0, 1] (fun _ => 0)
     (fun _ : Nat => (Except.error ⟨9, "denied"⟩ : Except Exc Nat))
     ⟨9, "denied"⟩ rfl (by decide)⟩

theorem retry_success_at_k_witness :
    ((1:Nat) ≤ 2 ∧ (2:Nat) ≤ 4 ∧
      (∀ i, 1 ≤ i → i < 2 →
        ∃ ex, (fun t : Nat => if t < 2 then (Except.error ⟨3, "t"⟩ : Except Exc Nat)
          else Except.ok 42) i = Except.error ex ∧ ex.kind ∈ [3]) ∧
      (fun t : Nat => if t < 2 then (Except.error ⟨3, "t"⟩ : Except Exc Nat)
        else Except.ok 42) 2 = Except.ok 42) ∧
    ((f_retry 4 1 2 0 [3] (fun _ => 0)
        (fun t : Nat => if t < 2 then (Except.error ⟨3, "t"⟩ : Except Exc Nat)
          else Except.ok 42)).outcome = Except.ok 42 ∧
      (f_retry 4 1 2 0 [3] (fun _ => 0)
        (fun t : Nat => if t < 2 then (Except.error ⟨3, "t"⟩ : Except Exc Nat)
          else Except.ok 42)).invocations = 2 ∧
      (f_retry 4 1 2 0 [3] (fun _ => 0)
        (fun t : Nat => if t < 2 then (Except.error ⟨3, "t"⟩ : Except Exc Nat)
          else Except.ok 42)).sleeps.length = 2 - 1) := by
  have hfail : ∀ i, 1 ≤ i → i < 2 →
      ∃ ex, (fun t : Nat => if t < 2 then (Except.error ⟨3, "t"⟩ : Except Exc Nat)
        else Except.ok 42) i = Except.error ex ∧ ex.kind ∈ [3] := by
    intro i h1 h2
    have hi : i = 1 := by omega
    subst hi
    exact ⟨⟨3, "t"⟩, rfl, by simp⟩
  exact ⟨⟨by norm_num, by norm_num, hfail, rfl⟩,
    retry_success_at_k 4 2 1 2 0 [3] (fun _ => 0)
      (fun t : Nat => if t < 2 then (Except.error ⟨3, "t"⟩ : Except Exc Nat)
        else Except.ok 42) 42 (by norm_num) (by norm_num) hfail rfl⟩

theorem retry_invalid_config_witness :
    ((0:Int) < 1 ∨ (1:ℚ) < 0 ∨ (2:ℚ) < 1 ∨ true = false) ∧
    ∃ err : PyError, ∀ op : Nat → Except Exc Nat,
      retry_apply 0 1 2 0 true [0] (fun _ => 0) op = Except.error err :=
  ⟨Or.inl (by norm_num),
   retry_invalid_config_rejected Nat 0 1 2 0 true [0] (fun _ => 0) (Or.inl (by norm_num))⟩

theorem retry_delay_sequence_witness :
    ((2:Nat) ≤ 3 ∧ (3:Nat) ≤ 3 ∧
      (∀ t, 1 ≤ t → t < 3 →
        ∃ ex, (fun _ : Nat => (Except.error ⟨2, "e"⟩ : Except Exc Nat)) t =
          Except.error ex ∧ ex.kind ∈ [2])) ∧
    ((f_retry 3 1 2 0 [2] (fun _ => 0)
        (fun _ : Nat => (Except.error ⟨2, "e"⟩ : Except Exc Nat))).sleeps[3 - 2]? =
      some (1 * 2 ^ (3 - 2)) ∧
    ∀ jit : ℚ, (f_retry 3 1 2 jit [2] (fun _ => 0)
        (fun _ : Nat => (Except.error ⟨2, "e"⟩ : Except Exc Nat))).sleeps[3 - 2]? =
      some (1 * 2 ^ (3 - 2) +
        jitter_amount jit (1 * 2 ^ (3 - 2)) ((fun _ : Nat => (0:ℚ)) (3 - 1)))) :=
  ⟨⟨by norm_num, by norm_num, fun t _ _ => ⟨⟨2, "e"⟩, rfl, by simp⟩⟩,
   retry_zero_jitter_delay_sequence 3 3 1 2 [2] (fun _ => 0)
     (fun _ : Nat => (Except.error ⟨2, "e"⟩ : Except Exc Nat))
     (by norm_num) (by norm_num) (fun t _ _ => ⟨⟨2, "e"⟩, rfl, by simp⟩)⟩

theorem retry_jitter_bounds_witness :
    ((2:Nat) ≤ 3 ∧ (3:Nat) ≤ 3 ∧ (0:ℚ) ≤ 1 ∧ (0:ℚ) ≤ 2 ∧
      (0:ℚ) ≤ (fun _ : Nat => (1/2 : ℚ)) (3 - 1) ∧
      (fun _ : Nat => (1/2 : ℚ)) (3 - 1) ≤ 1 ∧
      (∀ t, 1 ≤ t → t < 3 →
        ∃ ex, (fun _ : Nat => (Except.error ⟨2, "e"⟩ : Except Exc Nat)) t =
          Except.error ex ∧ ex.kind ∈ [2])) ∧
    (∃ s, (f_retry 3 1 2 (1/2) [2] (fun _ => 1/2)
        (fun _ : Nat => (Except.error ⟨2, "e"⟩ : Except Exc Nat))).sleeps[3 - 2]? = some s ∧
      s = 1 * 2 ^ (3 - 2) +
        jitter_amount (1/2) (1 * 2 ^ (3 - 2)) ((fun _ : Nat => (1/2 : ℚ)) (3 - 1)) ∧
      ((0:ℚ) < 1/2 → (1/2:ℚ) < 1 →
        1 * 2 ^ (3 - 2) ≤ s ∧ s ≤ 1 * 2 ^ (3 - 2) * (1 + 1/2)) ∧
      ((1:ℚ) ≤ 1/2 → 1 * 2 ^ (3 - 2) ≤ s ∧ s ≤ 1 * 2 ^ (3 - 2) + 1/2) ∧
      ((1/2:ℚ) = 0 → s = 1 * 2 ^ (3 - 2))) :=
  ⟨⟨by norm_num, by norm_num, by norm_num, by norm_num, by norm_num, by norm_num,
    fun t _ _ => ⟨⟨2, "e"⟩, rfl, by simp⟩⟩,
   retry_jitter_sleep_bounds 3 3 1 2 (1/2) [2] (fun _ => 1/2)
     (fun _ : Nat => (Except.error ⟨2, "e"⟩ : Except Exc Nat))
     (by norm_num) (by norm_num) (by norm_num) (by norm_num) (by norm_num) (by norm_num)
     (fun t _ _ => ⟨⟨2, "e"⟩, rfl, by simp⟩)⟩

theorem retry_terminal_failure_witness :
    ((f_retry 2 1 2 0 [4] (fun _ => 0)
        (fun _ : Nat => (Except.error ⟨4, "z"⟩ : Except Exc Nat))).outcome =
      Except.error ⟨4, "z"⟩) ∧
    ((fun _ : Nat => (Except.error ⟨4, "z"⟩ : Except Exc Nat))
        (f_retry 2 1 2 0 [4] (fun _ => 0)
          (fun _ : Nat => (Except.error ⟨4, "z"⟩ : Except Exc Nat))).invocations =
      Except.error ⟨4, "z"⟩ ∧
      (f_retry 2 1 2 0 [4] (fun _ => 0)
        (fun _ : Nat => (Except.error ⟨4, "z"⟩ : Except Exc Nat))).invocations =
      (f_retry 2 1 2 0 [4] (fun _ => 0)
        (fun _ : Nat => (Except.error ⟨4, "z"⟩ : Except Exc Nat))).sleeps.length + 1) :=
  ⟨rfl,
   retry_terminal_failure_unchanged 2 1 2 0 [4] (fun _ => 0)
     (fun _ : Nat => (Except.error ⟨4, "z"⟩ : Except Exc Nat)) ⟨4, "z"⟩ rfl⟩

theorem retry_kind_only_witness :
    (∀ t : Nat, exc_kind_of ((fun _ : Nat => (Except.error ⟨1, "msg a"⟩ : Except Exc Nat)) t) =
      exc_kind_of ((fun _ : Nat => (Except.error ⟨1, "msg b"⟩ : Except Exc Nat)) t)) ∧
    ((f_retry 3 1 2 0 [1] (fun _ => 0)
        (fun _ : Nat => (Except.error ⟨1, "msg a"⟩ : Except Exc Nat))).invocations =
      (f_retry 3 1 2 0 [1] (fun _ => 0)
        (fun _ : Nat => (Except.error ⟨1, "msg b"⟩ : Except Exc Nat))).invocations ∧
      (f_retry 3 1 2 0 [1] (fun _ => 0)
        (fun _ : Nat => (Except.error ⟨1, "msg a"⟩ : Except Exc Nat))).sleeps =
      (f_retry 3 1 2 0 [1] (fun _ => 0)
        (fun _ : Nat => (Except.error ⟨1, "msg b"⟩ : Except Exc Nat))).sleeps ∧
      exc_kind_of (f_retry 3 1 2 0 [1] (fun _ => 0)
        (fun _ : Nat => (Except.error ⟨1, "msg a"⟩ : Except Exc Nat))).outcome =
      exc_kind_of (f_retry 3 1 2 0 [1] (fun _ => 0)
        (fun _ : Nat => (Except.error ⟨1, "msg b"⟩ : Except Exc Nat))).outcome) :=
  ⟨fun _ => rfl,
   retry_classification_kind_only 3 1 2 0 [1] (fun _ => 0)
     (fun _ : Nat => (Except.error ⟨1, "msg a"⟩ : Except Exc Nat))
     (fun _ : Nat => (Except.error ⟨1, "msg b"⟩ : Except Exc Nat))
     (fun _ => rfl)⟩

theorem retry_negative_jitter_witness :
    ((-1 : ℚ) < 0) ∧
    (retry_validate 2 1 2 true (-1) = retry_validate 2 1 2 true 0 ∧
      ((1:Int) ≤ 2 → (0:ℚ) ≤ 1 → (1:ℚ) ≤ 2 → true = true →
        retry_validate 2 1 2 true (-1) = Except.ok ()) ∧
      f_retry 2 1 2 (-1) [0] (fun _ => 0) (fun _ : Nat => (Except.ok 5 : Except Exc Nat)) =
        f_retry 2 1 2 0 [0] (fun _ => 0) (fun _ : Nat => (Except.ok 5 : Except Exc Nat))) :=
  ⟨by norm_num,
   retry_negative_jitter_like_zero 2 2 1 2 (-1) true [0] (fun _ => 0)
     (fun _ : Nat => (Except.ok 5 : Except Exc Nat)) (by norm_num)⟩
